import Mathlib

/-!
Verification of the data-enrichment and aggregation pipeline of `app.py`.

Shallow embedding of the Streamlit dashboard script `src/app.py`
(`TorreControleCSInterno`).  Python strings are Lean `String`s; Python
`None` is `Option.none`; Python floats are modelled as exact rationals
`ℚ`; Python dicts are association lists built with Python dict-literal
semantics (`pyDict`); records fetched from the remote API are explicit
structures.  Each definition is translated from the corresponding lines
of `src/app.py` and is named after the Python symbol it embeds.
-/

/-- Python `str.strip()` on a character list: drop whitespace from both
ends.  The strings handled by this app only carry ASCII whitespace, which
`Char.isWhitespace` covers. -/
def pyStripL (l : List Char) : List Char :=
  ((l.dropWhile Char.isWhitespace).reverse.dropWhile Char.isWhitespace).reverse

/-- Python `str.strip()` on strings. -/
def pyStrip (s : String) : String :=
  (pyStripL s.toList).asString

/-- Python `x or d` for an optional string `x`: `None` and `""` are falsy. -/
def pyOrStr (o : Option String) (d : String) : String :=
  match o with
  | some s => if s = "" then d else s
  | none => d

/-- Python truthiness of an optional string: `None` and `""` are falsy. -/
def pyTruthy (o : Option String) : Bool :=
  match o with
  | some s => s ≠ ""
  | none => false

/-- Unicode NFKD decomposition (`unicodedata.normalize("NFKD", s)`)
restricted to the precomposed Latin letters that occur in this app's
string constants and in the spec's test inputs: each such letter
decomposes into its base letter followed by a combining mark; every
other character maps to itself. -/
def nfkdChar (c : Char) : List Char :=
  match c with
  | 'á' => ['a', '\u0301'] | 'Á' => ['A', '\u0301']
  | 'à' => ['a', '\u0300'] | 'À' => ['A', '\u0300']
  | 'â' => ['a', '\u0302'] | 'Â' => ['A', '\u0302']
  | 'ã' => ['a', '\u0303'] | 'Ã' => ['A', '\u0303']
  | 'é' => ['e', '\u0301'] | 'É' => ['E', '\u0301']
  | 'ê' => ['e', '\u0302'] | 'Ê' => ['E', '\u0302']
  | 'í' => ['i', '\u0301'] | 'Í' => ['I', '\u0301']
  | 'ó' => ['o', '\u0301'] | 'Ó' => ['O', '\u0301']
  | 'ô' => ['o', '\u0302'] | 'Ô' => ['O', '\u0302']
  | 'õ' => ['o', '\u0303'] | 'Õ' => ['O', '\u0303']
  | 'ú' => ['u', '\u0301'] | 'Ú' => ['U', '\u0301']
  | 'ü' => ['u', '\u0308'] | 'Ü' => ['U', '\u0308']
  | 'ç' => ['c', '\u0327'] | 'Ç' => ['C', '\u0327']
  | _ => [c]

/-- Python `unicodedata.combining(ch)` is nonzero exactly on combining marks;
the marks produced by `nfkdChar` all lie in the combining diacritical
block U+0300–U+036F. -/
def isCombining (c : Char) : Bool :=
  0x300 ≤ c.toNat && c.toNat ≤ 0x36F

/-- Python `str.casefold()` per character, restricted to the characters
this app handles: ASCII uppercase maps to lowercase, the German sharp s
folds to `ss`, everything else is unchanged. -/
def casefoldChar (c : Char) : List Char :=
  if c = 'ß' then ['s', 's']
  else if 'A' ≤ c ∧ c ≤ 'Z' then [Char.ofNat (c.toNat + 32)]
  else [c]

/-- Python `s.split()`: split on runs of whitespace, dropping empty
chunks.  `acc` accumulates the current word in reverse. -/
def splitWsAux : List Char → List Char → List (List Char)
  | [], acc => if acc = [] then [] else [acc.reverse]
  | c :: rest, acc =>
    if c.isWhitespace then
      if acc = [] then splitWsAux rest [] else acc.reverse :: splitWsAux rest []
    else splitWsAux rest (c :: acc)

def pySplit (l : List Char) : List (List Char) := splitWsAux l []

/-- Python `" ".join(s.split())`: collapse internal whitespace runs to
single spaces (and drop surrounding whitespace). -/
def collapseWs (l : List Char) : List Char :=
  List.intercalate [' '] (pySplit l)

/-- The function `_norm` from app.py (lines 121–126): strip, NFKD-decompose, drop
combining marks, collapse whitespace runs, casefold.  The argument is
optional because the Python code starts with `"" if s is None else
str(s).strip()`. -/
def _norm (s : Option String) : String :=
  let l0 := pyStripL (s.getD "").toList
  let l1 := (l0.map nfkdChar).flatten
  let l2 := l1.filter (fun c => !(isCombining c))
  let l3 := collapseWs l2
  ((l3.map casefoldChar).flatten).asString

/-- The function `_normalize` from app.py (lines 166–172): `None` short-circuits to
`""`; otherwise strip, NFKD-decompose, drop combining marks, casefold.
Unlike `_norm`, internal whitespace runs are NOT collapsed. -/
def _normalize (s : Option String) : String :=
  match s with
  | none => ""
  | some str =>
    let l0 := pyStripL str.toList
    let l1 := (l0.map nfkdChar).flatten
    let l2 := l1.filter (fun c => !(isCombining c))
    ((l2.map casefoldChar).flatten).asString


/-! ## Python dict semantics -/

/-- Inserting one key-value pair into a Python dict kept as an
association list: an existing key keeps its position but gets the new
value; a new key is appended. -/
def pyDictUpsert [DecidableEq α] (l : List (α × β)) (p : α × β) : List (α × β) :=
  if l.any (fun q => q.1 = p.1) then
    l.map (fun q => if q.1 = p.1 then (q.1, p.2) else q)
  else l ++ [p]

/-- Build a Python dict from a sequence of key-value pairs (dict
literal / comprehension / assignment-loop semantics: first-occurrence
position, last value wins). -/
def pyDict [DecidableEq α] (l : List (α × β)) : List (α × β) :=
  l.foldl pyDictUpsert []

/-- Python `dict.get(k)`: the value at the first (hence, for a
`pyDict`-built list, only) occurrence of key `k`. -/
def dictGet [DecidableEq α] (l : List (α × β)) (k : α) : Option β :=
  match l with
  | [] => none
  | p :: t => if p.1 = k then some p.2 else dictGet t k

/-! ## `TEAM_MAP_RAW`, `TEAM_MAP` and `map_to_team_or_self` (app.py 27–64, 174–180) -/

/-- The hardcoded responsible-name → team dict literal of app.py
lines 27–64, in source order (including the duplicated
`"Time de Acidentes"` key, whose later value wins under dict-literal
semantics). -/
def TEAM_MAP_RAW : List (String × String) := pyDict [
  ("App", "APP"),
  ("Gerbert Santos Santos", "APP"),
  ("Suporte Mottu", "BOT"),
  ("Pedro Henrique Stival", "CUSTOMER SUCCESS"),
  ("Thaís", "STORE"),
  ("Beatriz", "CUSTOMER SUCCESS"),
  ("Thiago Valcácio de Assis", "CS DUVIDAS"),
  ("João Pradella", "VENDAS"),
  ("Time de Acidentes", "FLEET ACIDENTES"),
  ("Felipe Ryu Nakamura", "FLEET DOCUMENTACOES"),
  ("Time Alerta", "FLEET DOCUMENTACOES"),
  ("Time de Ocorrências", "FLEET DOCUMENTACOES"),
  ("rogerio henrique correia filho", "FLEET PATIO"),
  ("Lucas Araújo Silva", "FLEET SUPORTE DE RUA"),
  ("Cristtiane Moreira", "FLEET SUPORTE DE RUA"),
  ("Gilberto Silva", "FLEET SUPORTE DE RUA"),
  ("Time Suporte de Rua", "FLEET SUPORTE DE RUA"),
  ("Engenharia", "MAINTENANCE"),
  ("MinhaMottu", "MINHA MOTTU"),
  ("João Ferrarini", "CREDITO"),
  ("Multas", "MULTAS"),
  ("Operações", "OPERATIONS"),
  ("Pagamentos", "PAYMENTS"),
  ("Bárbara Hülse", "PEOPLE"),
  ("Regulatório", "REGULATORIO"),
  ("Felipe Chao", "MINHA MOTTU"),
  ("Supply Chain", "SUPPLY"),
  ("Mottu Store", "STORE"),
  ("Ricardo Goes", "TOTEM ATTENDANCE"),
  ("Camila Camargo", "STORE"),
  ("Giulia", "OPERATIONS"),
  ("Patrick Freitas", "PARCERIAS E BENEFÍCIOS"),
  ("Apreensões - Pátio", "FLEET DOCUMENTACOES"),
  ("Thiago Castro", "FLEET PATIO"),
  ("Yasmin", "MINHA MOTTU"),
  ("Time de Acidentes", "SINISTRO")]

/-- The comprehension `TEAM_MAP = {_normalize(k): v for k, v in TEAM_MAP_RAW.items() if str(k).strip()}`
(app.py line 174). -/
def TEAM_MAP : List (String × String) :=
  pyDict ((TEAM_MAP_RAW.filter (fun p => pyStrip p.1 ≠ "")).map
    (fun p => (_normalize (some p.1), p.2)))

/-- The function `map_to_team_or_self` (app.py lines 176–180). -/
def map_to_team_or_self (responsavel : Option String) : String :=
  match dictGet TEAM_MAP (_normalize responsavel) with
  | some v => if pyStrip v = "" then pyOrStr responsavel "Não atribuído" else pyStrip v
  | none => pyOrStr responsavel "Não atribuído"


/-! ## `filiais`, `CITY2CODE`, `regionais_base`, `code_to_regional` (app.py 68–162) -/

/-- The hardcoded branch-name → code dict of app.py lines 68–118, in
source order.  The Python dict literal repeats seven keys, each with the
exact value it already had ("Mottu Anápolis" 58, "Mottu Caxias" 366,
"Mottu Ji Paraná" 416, "Mottu Itapetininga" 449,
"Mottu Campos dos Goytacazes" 285, "Mottu Ponta Grossa" 319,
"Mottu Cascavel" 397); dict-literal semantics collapse each repeat into
its first occurrence, giving this 175-entry table. -/
def filiais : List (String × ℕ) := [
  ("Mottu Abaetetuba", 282), ("Mottu Alagoinhas", 110), ("Mottu Ananindeua", 122), ("Mottu Anápolis", 58),
  ("Mottu Aparecida de Goiânia", 123), ("Mottu Aracaju", 29), ("Mottu Aracati", 274), ("Mottu Arapiraca", 52),
  ("Mottu Araçatuba", 109), ("Mottu Avaré", 454), ("Mottu Barreiras", 259), ("Mottu Bauru", 175),
  ("Mottu Bayeux", 384), ("Mottu Belo Horizonte", 3), ("Mottu Belém", 18), ("Mottu Blumenau", 356),
  ("Mottu Boa Vista", 61), ("Mottu Bragança", 238), ("Mottu Brasília", 10), ("Mottu Vila Leopoldina", 477),
  ("Mottu Cabo Frio", 283), ("Mottu Camaçari", 173), ("Mottu Campina Grande", 38), ("Mottu Campinas", 7),
  ("Mottu Campo Grande", 31), ("Mottu Campos dos Goytacazes", 285), ("Mottu Caruaru", 39), ("Mottu Cascavel", 397),
  ("Mottu Castanhal", 365), ("Mottu Caucaia", 458), ("Mottu Caxias", 366), ("Mottu Caxias do Sul", 69),
  ("Mottu Colatina", 474), ("Mottu Contagem", 53), ("Mottu Crato", 295), ("Mottu Criciúma", 51),
  ("Mottu Cuiabá", 30), ("Mottu Curitiba", 4), ("Mottu Divinópolis", 174), ("Mottu Dourados", 77),
  ("Mottu Duque de Caxias", 469), ("Mottu Eunápolis", 417), ("Mottu Feira de Santana", 40), ("Mottu Florianópolis", 32),
  ("Mottu Fortaleza", 9), ("Mottu Franca", 75), ("Mottu Fátima", 114), ("Mottu Goiânia", 15),
  ("Mottu Governador Valadares", 76), ("Mottu Guarulhos", 83), ("Mottu Icoaraci", 404), ("Mottu Imperatriz", 65),
  ("Mottu Interlagos", 37), ("Mottu Ipatinga", 55), ("Mottu Ipiranga", 94), ("Mottu Ipojuca", 267),
  ("Mottu Itabuna", 116), ("Mottu Itajaí", 111), ("Mottu Itapetininga", 449), ("Mottu Itapipoca", 357),
  ("Mottu Jacarepaguá", 248), ("Mottu Jandira", 41), ("Mottu Jequié", 271), ("Mottu Ji Paraná", 416),
  ("Mottu Joinville", 56), ("Mottu João Pessoa", 28), ("Mottu Juazeiro", 45), ("Mottu Juazeiro do Norte", 46),
  ("Mottu Juiz de Fora", 95), ("Mottu Jundiaí", 33), ("Mottu Lagarto", 462), ("Mottu Limão - Zona Norte", 36),
  ("Mottu Linhares", 258), ("Mottu Londrina", 49), ("Mottu Macapá", 66), ("Mottu Macaé", 266),
  ("Mottu Maceió", 22), ("Mottu Manaus", 5), ("Mottu Marabá", 68), ("Mottu Maracanaú", 180),
  ("Mottu Maringá", 50), ("Mottu Messejana", 402), ("Mottu Mexico CDMX Cien Metros", 85),
  ("Mottu Mexico CDMX Colegio Militar", 11), ("Mottu Mexico CDMX Tlalpan", 71), ("Mottu Mexico Cancún", 107),
  ("Mottu Mexico Guadalajara", 47), ("Mottu Mexico Guadalajara Centro", 113), ("Mottu Mexico Los Reyes", 413),
  ("Mottu Mexico Monterrey", 43), ("Mottu Mexico Monterrey La Fe", 106), ("Mottu Mexico Mérida", 249),
  ("Mottu Mexico Puebla", 48), ("Mottu Mexico Querétaro", 42), ("Mottu Mexico Toluca", 459),
  ("Mottu Mogi das Cruzes", 86), ("Mottu Montes Claros", 57), ("Mottu Mossoró", 67), ("Mottu Natal", 27),
  ("Mottu Niterói", 105), ("Mottu Olinda", 84), ("Mottu Palmas", 60), ("Mottu Parauapebas", 79),
  ("Mottu Parnamirim", 118), ("Mottu Parnaíba", 115), ("Mottu Patos", 300), ("Mottu Pelotas", 203),
  ("Mottu Petrolina", 309), ("Mottu Pindamonhangaba", 311), ("Mottu Piracicaba", 44), ("Mottu Piçarreira", 183),
  ("Mottu Ponta Grossa", 319), ("Mottu Porto Alegre", 8), ("Mottu Porto Seguro", 329), ("Mottu Porto Velho", 59),
  ("Mottu Pouso Alegre", 472), ("Mottu Praia Grande", 82), ("Mottu Presidente Prudente", 252),
  ("Mottu Recife", 16), ("Mottu Ribeirão Preto", 17), ("Mottu Rio Branco", 62), ("Mottu Rio Verde", 73),
  ("Mottu Rondonópolis", 70), ("Mottu Salvador", 6), ("Mottu Santa Maria", 455), ("Mottu Santarém", 81),
  ("Mottu Santos", 24), ("Mottu Serra", 19), ("Mottu Sete Lagoas", 372), ("Mottu Sobral", 74),
  ("Mottu Sorocaba", 34), ("Mottu São Bernardo", 23), ("Mottu São Carlos", 64), ("Mottu São José do Rio Preto", 63),
  ("Mottu São José dos Campos", 20), ("Mottu São Luís", 21), ("Mottu São Miguel", 13), ("Mottu Taboão", 35),
  ("Mottu Teixeira de Freitas", 284), ("Mottu Teresina", 26), ("Mottu Toledo", 463), ("Mottu Uberaba", 78),
  ("Mottu Uberlândia", 25), ("Mottu Valparaíso", 310), ("Mottu Vila Isabel", 225), ("Mottu Vila Velha", 72),
  ("Mottu Vitória", 405), ("Mottu Vitória da Conquista", 80), ("Mottu Vitória de Santo Antão", 250),
  ("Mottu Volta Redonda", 396), ("Mottu Várzea Grande", 473), ("Mottu Foz do Iguaçu", 511), ("Mottu Passo Fundo", 522), ("Mottu Sinop", 526),
  ("Mottu Itumbiara", 537), ("Mottu Lages", 527), ("Mottu Patos de Minas", 509),
  ("Mottu Cachoeiro de Itapemirim", 505), ("Mottu Cariacica", 489), ("Mottu Nossa Senhora do Socorro", 507),
  ("Mottu MX Edomex Coacalco", 499),
  ("Mottu México CDMX Iztapalapa", 87), ("Mottu Campo Grande - RJ", 497),
  ("Mottu São José do Ribamar", 513), ("Mottu São Mateus", 514), ("Mottu Ourinhos", 475), ("Mottu Nova Iguaçu", 478), ("Mottu Madureira", 476),
  ("Mottu Poços de Caldas", 515), ("Mottu Americana", 533),
  ("Mottu Marília", 536), ("Mottu Botucatu", 523), ("Mottu Votuporanga", 542), ("Mottu Varginha", 546), ("Mottu Chapecó", 544)]

/-- Python `str.lower()` per character, restricted to ASCII (the only
case where this app applies it is the literal prefix `"Mottu "`). -/
def asciiLower (c : Char) : Char :=
  if 'A' ≤ c ∧ c ≤ 'Z' then Char.ofNat (c.toNat + 32) else c

/-- The function `_city_from_filial` (app.py lines 128–130):
`name[6:].strip() if name.lower().startswith("mottu ") else name.strip()`. -/
def _city_from_filial (name : Option String) : String :=
  let n := (pyOrStr name "").toList
  if (n.map asciiLower).take 6 = "mottu ".toList then (pyStripL (n.drop 6)).asString
  else (pyStripL n).asString

/-- The alias table `CITY_ALIASES` (app.py lines 138–141): empty — both entries are
commented out in the source. -/
def CITY_ALIASES : List (String × String) := []

/-- The sequence of assignments `CITY2CODE[_norm(city)] = code` made by
the loop of app.py lines 133–136, in iteration order over `filiais`. -/
def cityCodeAssignments : List (String × ℕ) :=
  filiais.map (fun p => (_norm (some (_city_from_filial (some p.1))), p.2))

/-- The dict `CITY2CODE` (app.py lines 133–144): normalized city → branch code,
built by iterating `filiais` and then applying the (empty) alias loop. -/
def CITY2CODE : List (String × ℕ) :=
  CITY_ALIASES.foldl
    (fun acc kv =>
      match dictGet acc (_norm (some kv.2)) with
      | some code => pyDictUpsert acc (_norm (some kv.1), code)
      | none => acc)
    (pyDict cityCodeAssignments)

/-- The lookup `CITY2CODE.get(k)`: under Python dict-assignment semantics the value
returned for `k` is the one of the LAST assignment with key `k`, i.e. a
lookup in the reversed assignment sequence (`CITY2CODE_get_spec` below
proves this equal to a direct lookup in `CITY2CODE`). -/
def CITY2CODE_get (k : String) : Option ℕ :=
  dictGet cityCodeAssignments.reverse k

/-- The dict `regionais_base` (app.py lines 146–154). -/
def regionais_base : List (String × List ℕ) := [
  ("Francisco", [61, 5, 59, 30, 4, 29, 28, 26, 27, 6, 21, 114, 9, 84, 16, 122, 18, 17]),
  ("Bruno", [31, 62, 66, 25, 68, 63, 81, 79, 38, 8, 3, 72, 19, 15, 118, 40, 46, 39]),
  ("Flávio", [82, 24, 35, 94, 83, 36, 23, 41, 477, 37, 13, 86, 7, 33, 34, 44]),
  ("Júlio", [22, 52, 57, 74, 67, 78, 116, 60, 65, 32, 111, 404, 56, 10, 45, 309, 53, 58, 123, 105, 402, 183, 173, 180, 20, 75]),
  ("Leonardo", [55, 474, 259, 285, 300, 77, 511, 416, 522, 526, 537, 527, 509, 455, 505, 357, 463, 397, 174, 203, 372, 473, 319, 489, 462, 507, 476, 478, 497, 396, 366, 513, 267, 514, 449, 454, 475, 472, 515, 533, 536, 523, 542, 546, 544]),
  ("Lucas", [42, 48, 107, 249, 113, 47, 43, 106, 71, 499, 459, 87, 413, 85, 11]),
  ("Rogério", [69, 70, 73, 76, 110, 115, 271, 274, 258, 329, 51, 95, 284, 252, 238, 80, 109, 49, 50, 310, 295, 405, 384, 225, 248, 266, 283, 250, 365, 282, 64, 175, 311, 469, 417, 356, 458])]

/-- Insertion sort by `≤` over a linear order (used to embed Python's
`sorted`). -/
def insLe [LinearOrder α] (x : α) : List α → List α
  | [] => [x]
  | y :: t => if x ≤ y then x :: y :: t else y :: insLe x t

def insSort [LinearOrder α] : List α → List α
  | [] => []
  | x :: t => insLe x (insSort t)

/-- The dict `regionais_ui` (app.py lines 155–156): the base regionais plus the
synthetic all-codes "Luciano" entry. -/
def regionais_ui : List (String × List ℕ) :=
  pyDictUpsert regionais_base ("Luciano", insSort (regionais_base.map Prod.snd).flatten)

/-- The (code, regional) pairs produced by the

    for reg_name, codes in regionais_base.items():
        for c in codes:
            code_to_regional[c] = reg_name

loop of app.py lines 159–162, in iteration order. -/
def regionalCodePairs : List (ℕ × String) :=
  (regionais_base.map (fun p => p.2.map (fun c => (c, p.1)))).flatten

/-- The dict `code_to_regional` (app.py lines 159–162): built only from the base
regionais. -/
def code_to_regional : List (ℕ × String) := pyDict regionalCodePairs

set_option maxRecDepth 100000


/-! ## Conversation records and the two row-building pipelines
(app.py 287–345 `get_rows_with_regional`, 347–424 `load_rows_with_progress`) -/

/-- A slim conversation record as returned by `fetch_conversations`.
`created_at` holds the parsed numeric timestamp when Python's
`float(obj.get("created_at"))` succeeds; `none` models a missing or
non-numeric `created_at`, where `float` raises.  `admin_assignee_id`
holds `str(aid)` for a non-null id.  `contacts` is the embedded contact
list, each entry being that contact's optional id (the Python code only
ever reads the first entry's `id`). -/
structure Conv where
  state : Option String
  open_ : Option Bool
  created_at : Option ℚ
  admin_assignee_id : Option String
  contacts : List (Option String)
deriving DecidableEq

/-- One row of the detailed `rows_df` DataFrame.  `ContactId` is the
raw cell: `none` models a Python `None` cell, `some s` a string cell.
`FilialCodigo` is `none` where the Python code stores the placeholder
`""` instead of an integer code. -/
structure Row where
  Time : String
  TMA_individual : ℚ
  Responsavel : String
  ContactId : Option String
  Cidade : String
  Filial : String
  FilialCodigo : Option ℕ
  Regional : String
deriving DecidableEq

/-- The constant `REFRESH_SECS = 600` (app.py line 22). -/
def REFRESH_SECS : ℚ := 600

/-- The exclusion set `EXCLUDE_ADMINS` (app.py line 23). -/
def EXCLUDE_ADMINS : List String := ["Suporte Mottu", "Não atribuído"]

/-- The age computation `tma_min = max(0.0, (now_ts - ca) / 60.0)` (app.py lines 307 and
395, identical in both pipelines). -/
def tmaMinutes (now_ts ca : ℚ) : ℚ := max 0 ((now_ts - ca) / 60)

/-- The resolved responsible name (app.py lines 310–312 and 396–398):
`admin_map.get(str(aid)) if aid is not None else None`, then
`resp = admin_name or "Não atribuído"`. -/
def respOf (admin_map : List (String × String)) (c : Conv) : String :=
  let admin_name : Option String :=
    match c.admin_assignee_id with
    | some aid => dictGet admin_map aid
    | none => none
  pyOrStr admin_name "Não atribuído"

/-- First contact id extraction (app.py lines 318–323 and 366–371,
identical in both pipelines): the first entry of the embedded contact
list, if any; a null first entry or a first entry without id gives
`None`. -/
def firstContactId (c : Conv) : Option String :=
  match c.contacts with
  | [] => none
  | cid :: _ => cid

/-- The city/filial/regional enrichment derived from one contact id.
Both pipelines compute exactly these five lines (app.py 326–330 inline
in `get_rows_with_regional`; 372–376 in the `contact_map` loop of
`load_rows_with_progress`):

    city = fetch_contact_city(...) if contact_id else None
    city_norm = _norm(city) if city else ""
    filial_code = CITY2CODE.get(city_norm)
    filial_name = next((n for n, c in filiais.items() if c == filial_code),
                       f"Mottu {city}" if city else "")
    regional = code_to_regional.get(filial_code, "NÃO MAPEADO")

`cityOf` stands for the memoized `fetch_contact_city` resolution. -/
structure CInfo where
  Cidade : String
  Filial : String
  FilialCodigo : Option ℕ
  Regional : String
deriving DecidableEq

def contactInfoOf (cityOf : String → Option String) (contact_id : Option String) : CInfo :=
  let city : Option String :=
    if pyTruthy contact_id then cityOf (contact_id.getD "") else none
  let city_norm : String := if pyTruthy city then _norm city else ""
  let filial_code : Option ℕ := CITY2CODE_get city_norm
  let filial_name : String :=
    match filiais.find? (fun p => some p.2 = filial_code) with
    | some p => p.1
    | none => if pyTruthy city then "Mottu " ++ city.getD "" else ""
  let regional : String :=
    match filial_code with
    | some code => (dictGet code_to_regional code).getD "NÃO MAPEADO"
    | none => "NÃO MAPEADO"
  { Cidade := pyOrStr city "",
    Filial := pyOrStr (some filial_name) "",
    FilialCodigo := filial_code,
    Regional := regional }

/-- One iteration of the row loop of `get_rows_with_regional`
(app.py lines 298–341): `none` when the record is skipped
(state/open re-check, unparseable `created_at`, excluded responsible),
otherwise the enriched row. -/
def buildRow (admin_map : List (String × String)) (cityOf : String → Option String)
    (now_ts : ℚ) (c : Conv) : Option Row :=
  if c.state ≠ some "open" ∨ c.open_ ≠ some true then none
  else
    match c.created_at with
    | none => none
    | some ca =>
      let tma_min := tmaMinutes now_ts ca
      let resp := respOf admin_map c
      if resp ∈ EXCLUDE_ADMINS then none
      else
        let time_group := map_to_team_or_self (some resp)
        let contact_id := firstContactId c
        let cinfo := contactInfoOf cityOf contact_id
        some { Time := time_group, TMA_individual := tma_min, Responsavel := resp,
               ContactId := contact_id, Cidade := cinfo.Cidade, Filial := cinfo.Filial,
               FilialCodigo := cinfo.FilialCodigo, Regional := cinfo.Regional }

/-- The pipeline `get_rows_with_regional` (app.py lines 287–345), as a function of
the fetched data: the admin map, the memoized contact-city resolution,
the clock reading and the slim conversation list. -/
def get_rows_with_regional (admin_map : List (String × String))
    (cityOf : String → Option String) (now_ts : ℚ) (slim : List Conv) : List Row :=
  slim.filterMap (buildRow admin_map cityOf now_ts)

/-- The `contact_map` dict built by `load_rows_with_progress`
(app.py lines 364–382): keyed by the (possibly null) first contact id
of EVERY slim conversation, value the derived enrichment. -/
def contact_map (cityOf : String → Option String) (slim : List Conv) :
    List (Option String × CInfo) :=
  pyDict (slim.map (fun c => (firstContactId c, contactInfoOf cityOf (firstContactId c))))

/-- One iteration of the final row loop of `load_rows_with_progress`
(app.py lines 388–420); `cmap` is the prebuilt `contact_map`.  Note
`"ContactId": contact_id or ""` (line 415) against `buildRow`'s
`"ContactId": contact_id` (line 336), and the `cinfo.get(..., default)`
reads. -/
def loadRow (admin_map : List (String × String)) (cmap : List (Option String × CInfo))
    (now_ts : ℚ) (c : Conv) : Option Row :=
  if c.state ≠ some "open" ∨ c.open_ ≠ some true then none
  else
    match c.created_at with
    | none => none
    | some ca =>
      let tma_min := tmaMinutes now_ts ca
      let resp := respOf admin_map c
      if resp ∈ EXCLUDE_ADMINS then none
      else
        let time_group := map_to_team_or_self (some resp)
        let contact_id := firstContactId c
        let cinfo := (dictGet cmap contact_id).getD
          { Cidade := "", Filial := "", FilialCodigo := none, Regional := "NÃO MAPEADO" }
        some { Time := time_group, TMA_individual := tma_min, Responsavel := resp,
               ContactId := some (pyOrStr contact_id ""), Cidade := cinfo.Cidade,
               Filial := cinfo.Filial, FilialCodigo := cinfo.FilialCodigo,
               Regional := cinfo.Regional }

/-- The pipeline `load_rows_with_progress` (app.py lines 347–424) as a function of
the same fetched data. -/
def load_rows_with_progress (admin_map : List (String × String))
    (cityOf : String → Option String) (now_ts : ℚ) (slim : List Conv) : List Row :=
  slim.filterMap (loadRow admin_map (contact_map cityOf slim) now_ts)

/-! ## The aggregation block (app.py 480–486) -/

/-- Round-half-to-even to an integer, the rounding used by pandas'
`.round(2)` (floats are modelled as exact rationals). -/
def roundHalfEven (q : ℚ) : ℤ :=
  let f : ℤ := Rat.floor q
  let r : ℚ := q - (f : ℚ)
  if r < 1 / 2 then f
  else if 1 / 2 < r then f + 1
  else if f % 2 = 0 then f else f + 1

/-- The rounding `.round(2)` on a rational. -/
def round2 (q : ℚ) : ℚ := ((roundHalfEven (q * 100) : ℤ) : ℚ) / 100

/-- The grouping `groupby("Time", dropna=False)` sorts the distinct group keys in
ascending (lexicographic) order — pandas' default `sort=True`. -/
def groupTeams (rows : List Row) : List String :=
  insSort (rows.map Row.Time).dedup

/-- One aggregate row: `Qtd = size`, `TMA = mean`, then
`agg["TMA"] = round(mean, 2)` (app.py lines 480–485). -/
structure AggRow where
  Time : String
  Qtd : ℕ
  TMA : ℚ
deriving DecidableEq

def aggRowFor (rows : List Row) (t : String) : AggRow :=
  let g := rows.filter (fun r => r.Time = t)
  { Time := t, Qtd := g.length,
    TMA := round2 ((g.map Row.TMA_individual).sum / (g.length : ℚ)) }

/-- Stable insertion sort, descending on `TMA`
(`sort_values(["TMA"], ascending=False, kind="stable")`, app.py 486):
an element moves before exactly those earlier elements whose `TMA` is
strictly smaller, so rows with equal `TMA` keep their relative order. -/
def insDesc (x : AggRow) : List AggRow → List AggRow
  | [] => [x]
  | y :: t => if y.TMA ≤ x.TMA then x :: y :: t else y :: insDesc x t

def sortByTMADesc : List AggRow → List AggRow
  | [] => []
  | x :: t => insDesc x (sortByTMADesc t)

/-- The `agg` pipeline of app.py lines 480–486: group `rows_df` by
`Time` (group keys sorted ascending), aggregate count and rounded mean,
then stable-sort by `TMA` descending. -/
def agg (rows : List Row) : List AggRow :=
  sortByTMADesc ((groupTeams rows).map (aggRowFor rows))

/-- The first-encountered order of the distinct `Time` values in a row
sequence (what the spec's tie-break clause refers to). -/
def firstEncounterOrder (rows : List Row) : List String :=
  rows.foldl (fun acc r => if r.Time ∈ acc then acc else acc ++ [r.Time]) []

/-! ## The session-state refresh block (app.py 458–464) -/

/-- The two `st.session_state` slots the refresh block uses; a missing
key is `none`. -/
structure SessionState where
  rows_df : Option (List Row)
  expires_at : Option ℚ
deriving DecidableEq

/-- Outcome of running `load_rows_with_progress()`: either the built
DataFrame or a raised exception. -/
inductive FetchResult where
  | ok (df : List Row)
  | err
deriving DecidableEq

/-- The staleness test of app.py line 459: `"rows_df" not in
st.session_state or "expires_at" not in st.session_state or now >=
st.session_state["expires_at"]`. -/
def isStale (s : SessionState) (now : ℚ) : Bool :=
  s.rows_df.isNone || s.expires_at.isNone ||
    (match s.expires_at with
     | some e => decide (e ≤ now)
     | none => true)

/-- The refresh block of app.py lines 458–464.  When stale, the
pipeline runs: on success both session slots are overwritten and the
fresh rows are displayed; on an exception the assignments never execute
(the exception propagates before them), so the session state is
returned unchanged together with the error.  When fresh, the cached
rows are displayed. -/
def refreshStep (s : SessionState) (now : ℚ) (fetch : FetchResult) :
    SessionState × Except Unit (List Row) :=
  if isStale s now then
    match fetch with
    | .ok df => ({ rows_df := some df, expires_at := some (now + REFRESH_SECS) }, .ok df)
    | .err => (s, .error ())
  else (s, .ok (s.rows_df.getD []))

/-! ## `get_auth` (app.py 186–202) -/

/-- The `[auth]` section of `st.secrets`, each key optional. -/
structure AuthSect where
  INTERCOM_BEARER : Option String
  INTERCOM_BASE_URL : Option String
  INTERCOM_VERSION : Option String
deriving DecidableEq

/-- The Python errors `get_auth` can raise: the `RuntimeError` with its
descriptive message, the `NameError`/`UnboundLocalError` from reading
`bearer` when the `[auth]` block was never entered, and the
`AttributeError` from calling `.strip()` on a `None` returned by
`sect.get(...)`. -/
inductive PyErr where
  | nameError
  | attributeError
  | runtimeError (msg : String)
deriving DecidableEq

/-- Whether a `PyErr` carries a descriptive message. -/
def PyErr.message? : PyErr → Option String
  | .runtimeError m => some m
  | _ => none

/-- The message of the `RuntimeError` raised at app.py lines 195–197. -/
def bearerMissingMsg : String :=
  "INTERCOM_BEARER ausente. Defina em 'Configurações → Advanced settings → Secrets' do Streamlit Cloud."

/-- The function `get_auth` (app.py lines 186–202).  The secrets configuration is
`none` when `st.secrets` has no `"auth"` section (then the local
variables `bearer`/`base`/`ver` are never assigned and the
`if not bearer` line raises an unbound-local `NameError`); inside the
section, a missing key makes the corresponding `sect.get(...)` return
`None` and the immediate `.strip()` raise an `AttributeError`. -/
def get_auth (secrets : Option AuthSect) : Except PyErr (String × String × String) :=
  match secrets with
  | none => .error .nameError
  | some sect =>
    match sect.INTERCOM_BEARER with
    | none => .error .attributeError
    | some b =>
      match sect.INTERCOM_BASE_URL with
      | none => .error .attributeError
      | some ba =>
        match sect.INTERCOM_VERSION with
        | none => .error .attributeError
        | some ve =>
          if pyStrip b = "" then .error (.runtimeError bearerMissingMsg)
          else .ok (pyStrip b, pyStrip ba, pyStrip ve)

/-! ## Concrete sample inputs used by the witness theorems -/

def adminMapW : List (String × String) := [("7", "Zeca")]

def cityOfCuritibaW : String → Option String := fun _ => some "Curitiba"

def cityOfNoneW : String → Option String := fun _ => none

/-- An open conversation created at epoch 0 with an unmapped admin and a
contact resolving to Curitiba. -/
def convCuritibaW : Conv :=
  { state := some "open", open_ := some true, created_at := some 0,
    admin_assignee_id := some "7", contacts := [some "c1"] }

/-- An open conversation whose creation timestamp lies in the future of
the sample clock (600), with no contact. -/
def convFutureW : Conv :=
  { state := some "open", open_ := some true, created_at := some 1200,
    admin_assignee_id := some "7", contacts := [] }

/-- An open conversation without a parseable `created_at`. -/
def convNoCreatedW : Conv :=
  { state := some "open", open_ := some true, created_at := none,
    admin_assignee_id := some "7", contacts := [] }

/-- The row `buildRow` produces from `convCuritibaW` at clock 600. -/
def rowCuritibaW : Row :=
  { Time := "Zeca", TMA_individual := 10, Responsavel := "Zeca",
    ContactId := some "c1", Cidade := "Curitiba", Filial := "Mottu Curitiba",
    FilialCodigo := some 4, Regional := "Francisco" }

/-- The row `buildRow` produces from `convFutureW` at clock 600. -/
def rowFutureW : Row :=
  { Time := "Zeca", TMA_individual := 0, Responsavel := "Zeca",
    ContactId := none, Cidade := "", Filial := "",
    FilialCodigo := none, Regional := "NÃO MAPEADO" }

/-- Two detail rows with equal `TMA_individual` whose teams occur in the
order B, A. -/
def rowTeamB : Row :=
  { Time := "B", TMA_individual := 10, Responsavel := "B", ContactId := none,
    Cidade := "", Filial := "", FilialCodigo := none, Regional := "NÃO MAPEADO" }

def rowTeamA : Row :=
  { Time := "A", TMA_individual := 10, Responsavel := "A", ContactId := none,
    Cidade := "", Filial := "", FilialCodigo := none, Regional := "NÃO MAPEADO" }

/-- A session state holding a previously computed result that expired at
time 0. -/
def sessionW : SessionState :=
  { rows_df := some [rowTeamA], expires_at := some 0 }

/-! ## Generic lemmas about the Python dict embedding -/

theorem dictGet_append [DecidableEq α] (l l' : List (α × β)) (k : α) :
    dictGet (l ++ l') k =
      match dictGet l k with
      | some v => some v
      | none => dictGet l' k := by
  induction l with
  | nil => rfl
  | cons p t ih =>
    by_cases h : p.1 = k
    · simp [dictGet, h]
    · simp [dictGet, h, ih]

theorem dictGet_map_set_ne [DecidableEq α] (l : List (α × β)) (a : α) (b : β) (k : α)
    (h : a ≠ k) :
    dictGet (l.map (fun q => if q.1 = a then (q.1, b) else q)) k = dictGet l k := by
  induction l with
  | nil => rfl
  | cons p t ih =>
    by_cases hp : p.1 = a
    · have hpk : p.1 ≠ k := by rw [hp]; exact h
      simp [dictGet, hp, hpk, ih, h]
    · by_cases hk : p.1 = k
      · have hka : ¬ k = a := by rw [← hk]; exact hp
        simp [dictGet, hp, hk, hka]
      · simp [dictGet, hp, hk, ih]

theorem dictGet_map_set_eq [DecidableEq α] (l : List (α × β)) (a : α) (b : β)
    (h : l.any (fun q => q.1 = a) = true) :
    dictGet (l.map (fun q => if q.1 = a then (q.1, b) else q)) a = some b := by
  induction l with
  | nil => simp at h
  | cons p t ih =>
    by_cases hp : p.1 = a
    · simp [dictGet, hp]
    · simp only [List.any_cons, Bool.or_eq_true, decide_eq_true_eq] at h
      rcases h with h | h
    
      · exact absurd h hp
      · simp [dictGet, hp, ih h]

theorem dictGet_eq_none_of_not_any [DecidableEq α] (l : List (α × β)) (k : α)
    (h : l.any (fun q => q.1 = k) = false) : dictGet l k = none := by
  induction l with
  | nil => rfl
  | cons p t ih =>
    simp only [List.any_cons, Bool.or_eq_false_iff, decide_eq_false_iff_not] at h
    simp [dictGet, h.1, ih (by simpa using h.2)]

theorem dictGet_pyDictUpsert [DecidableEq α] (l : List (α × β)) (p : α × β) (k : α) :
    dictGet (pyDictUpsert l p) k = if p.1 = k then some p.2 else dictGet l k := by
  unfold pyDictUpsert
  rcases Bool.eq_false_or_eq_true (l.any (fun q => q.1 = p.1)) with hmem | hmem
  case inl =>
    rw [if_pos hmem]
    by_cases hk : p.1 = k
    · subst hk; rw [if_pos rfl]; exact dictGet_map_set_eq l p.1 p.2 hmem
    · rw [if_neg hk]; exact dictGet_map_set_ne l p.1 p.2 k hk
  case inr =>
    rw [if_neg (by rw [hmem]; exact Bool.false_ne_true), dictGet_append]
    by_cases hk : p.1 = k
    · subst hk
      rw [if_pos rfl]
      have hnone : dictGet l p.1 = none := dictGet_eq_none_of_not_any l p.1 hmem
      rw [hnone]
      simp [dictGet]
    · rw [if_neg hk]
      cases h : dictGet l k with
      | none => simp [dictGet, hk]
      | some v => rfl

/-- Looking a key up in a Python dict built from an assignment sequence
returns the value of the LAST assignment with that key: a lookup in the
reversed sequence. -/
theorem dictGet_pyDict [DecidableEq α] (l : List (α × β)) (k : α) :
    dictGet (pyDict l) k = dictGet l.reverse k := by
  induction l using List.reverseRecOn with
  | nil => rfl
  | append_singleton t p ih =>
    have hfold : pyDict (t ++ [p]) = pyDictUpsert (pyDict t) p := by
      unfold pyDict
      rw [List.foldl_append]
      rfl
    rw [hfold, dictGet_pyDictUpsert, List.reverse_append]
    simp only [List.reverse_singleton, List.singleton_append, dictGet]
    by_cases hk : p.1 = k
    · rw [if_pos hk, if_pos hk]
    · rw [if_neg hk, if_neg hk, ih]
      exact rfl

/-- The lookup `CITY2CODE_get` agrees with a direct lookup in `CITY2CODE`. -/
theorem CITY2CODE_get_spec (k : String) :
    CITY2CODE_get k = dictGet CITY2CODE k := by
  unfold CITY2CODE_get CITY2CODE CITY_ALIASES
  rw [List.foldl_nil]
  exact (dictGet_pyDict cityCodeAssignments k).symm

theorem mem_of_dictGet [DecidableEq α] {l : List (α × β)} {k : α} {v : β}
    (h : dictGet l k = some v) : (k, v) ∈ l := by
  induction l with
  | nil => simp [dictGet] at h
  | cons p t ih =>
    by_cases hp : p.1 = k
    · rw [dictGet, if_pos hp] at h
      obtain rfl := Option.some.inj h
      obtain ⟨a, b⟩ := p
      subst hp
      exact List.mem_cons_self _ _
    · rw [dictGet, if_neg hp] at h
      exact List.mem_cons_of_mem p (ih h)

theorem dictGet_eq_none_of_not_mem_keys [DecidableEq α] {l : List (α × β)} {k : α}
    (h : k ∉ l.map Prod.fst) : dictGet l k = none := by
  induction l with
  | nil => rfl
  | cons p t ih =>
    simp only [List.map_cons, List.mem_cons, not_or] at h
    rw [dictGet, if_neg (fun he => h.1 he.symm)]
    exact ih h.2

theorem dictGet_of_mem_of_nodup_keys [DecidableEq α] {l : List (α × β)} {k : α} {v : β}
    (hmem : (k, v) ∈ l) (hn : (l.map Prod.fst).Nodup) : dictGet l k = some v := by
  induction l with
  | nil => simp at hmem
  | cons p t ih =>
    rw [List.map_cons, List.nodup_cons] at hn
    rcases List.mem_cons.mp hmem with heq | htail
    · subst heq
      rw [dictGet, if_pos rfl]
    · have hkt : k ∈ t.map Prod.fst := List.mem_map.mpr ⟨(k, v), htail, rfl⟩
      have hpk : p.1 ≠ k := fun he => hn.1 (he ▸ hkt)
      rw [dictGet, if_neg hpk]
      exact ih htail hn.2

/-- Looking up a key in an association list whose entries all have the
shape `(f a, F (f a))` yields `F k` whenever the key is present. -/
theorem dictGet_graph [DecidableEq κ] (f : α → κ) (F : κ → β) (l : List α) (k : κ)
    (hk : k ∈ l.map f) :
    dictGet (l.map (fun a => (f a, F (f a)))) k = some (F k) := by
  induction l with
  | nil => simp at hk
  | cons a t ih =>
    by_cases ha : f a = k
    · rw [List.map_cons, dictGet, if_pos ha, ha]
    · rw [List.map_cons, dictGet, if_neg ha]
      rw [List.map_cons] at hk
      rcases List.mem_cons.mp hk with heq | htail
      · exact absurd heq.symm ha
      · exact ih htail

/-! ## Lemmas about the sorts used by the aggregator -/

theorem mem_insLe [LinearOrder α] (x a : α) (l : List α) :
    a ∈ insLe x l ↔ a = x ∨ a ∈ l := by
  induction l with
  | nil => simp [insLe]
  | cons y t ih =>
    by_cases h : x ≤ y
    · simp [insLe, h]
    · simp only [insLe, h, if_false, List.mem_cons, ih]
      tauto

theorem insLe_sorted [LinearOrder α] (x : α) (l : List α)
    (h : l.Pairwise (· ≤ ·)) : (insLe x l).Pairwise (· ≤ ·) := by
  induction l with
  | nil => simp [insLe]
  | cons y t ih =>
    rcases List.pairwise_cons.mp h with ⟨hy, ht⟩
    by_cases hxy : x ≤ y
    · simp only [insLe, hxy, if_true]
      refine List.pairwise_cons.mpr ⟨?_, h⟩
      intro b hb
      rcases List.mem_cons.mp hb with rfl | hbt
      · exact hxy
      · exact le_trans hxy (hy b hbt)
    · simp only [insLe, hxy, if_false]
      refine List.pairwise_cons.mpr ⟨?_, ih ht⟩
      intro b hb
      rcases (mem_insLe x b t).mp hb with rfl | hbt
      · exact le_of_not_le hxy
      · exact hy b hbt

theorem insSort_sorted [LinearOrder α] (l : List α) :
    (insSort l).Pairwise (· ≤ ·) := by
  induction l with
  | nil => simp [insSort]
  | cons x t ih => exact insLe_sorted x _ ih

theorem insLe_perm [LinearOrder α] (x : α) (l : List α) :
    List.Perm (insLe x l) (x :: l) := by
  induction l with
  | nil => exact List.Perm.refl _
  | cons y t ih =>
    by_cases h : x ≤ y
    · simp only [insLe, h, if_true]
      exact List.Perm.refl _
    · simp only [insLe, h, if_false]
      exact List.Perm.trans (List.Perm.cons y ih) (List.Perm.swap x y t)

theorem insSort_perm [LinearOrder α] (l : List α) : List.Perm (insSort l) l := by
  induction l with
  | nil => exact List.Perm.refl _
  | cons x t ih =>
    exact List.Perm.trans (insLe_perm x (insSort t)) (List.Perm.cons x ih)

theorem insSort_pairwise_lt [LinearOrder α] (l : List α) (h : l.Nodup) :
    (insSort l).Pairwise (· < ·) := by
  have hs := insSort_sorted l
  have hn : (insSort l).Nodup := ((insSort_perm l).nodup_iff).mpr h
  exact (hs.and hn).imp (fun hab => lt_of_le_of_ne hab.1 hab.2)

theorem groupTeams_pairwise_lt (rows : List Row) :
    (groupTeams rows).Pairwise (· < ·) :=
  insSort_pairwise_lt _ (List.nodup_dedup _)

theorem mem_insDesc (x a : AggRow) (l : List AggRow) :
    a ∈ insDesc x l ↔ a = x ∨ a ∈ l := by
  induction l with
  | nil => simp [insDesc]
  | cons y t ih =>
    by_cases h : y.TMA ≤ x.TMA
    · simp [insDesc, h]
    · simp only [insDesc, h, if_false, List.mem_cons, ih]
      tauto

theorem mem_sortByTMADesc (a : AggRow) (l : List AggRow) :
    a ∈ sortByTMADesc l ↔ a ∈ l := by
  induction l with
  | nil => simp [sortByTMADesc]
  | cons x t ih =>
    simp only [sortByTMADesc, mem_insDesc, List.mem_cons, ih]

theorem insDesc_pairwise (x : AggRow) (l : List AggRow)
    (hl : l.Pairwise (fun a b => b.TMA ≤ a.TMA ∧ (a.TMA = b.TMA → a.Time < b.Time)))
    (hx : ∀ z ∈ l, x.TMA = z.TMA → x.Time < z.Time) :
    (insDesc x l).Pairwise
      (fun a b => b.TMA ≤ a.TMA ∧ (a.TMA = b.TMA → a.Time < b.Time)) := by
  induction l with
  | nil => simp [insDesc]
  | cons y t ih =>
    rcases List.pairwise_cons.mp hl with ⟨hy, ht⟩
    by_cases hcmp : y.TMA ≤ x.TMA
    · simp only [insDesc, hcmp, if_true]
      refine List.pairwise_cons.mpr ⟨?_, hl⟩
      intro b hb
      rcases List.mem_cons.mp hb with rfl | hbt
      · exact ⟨hcmp, fun heq => hx b (List.mem_cons_self _ _) heq⟩
      · refine ⟨le_trans (hy b hbt).1 hcmp, fun heq => hx b (List.mem_cons_of_mem _ hbt) heq⟩
    · simp only [insDesc, hcmp, if_false]
      refine List.pairwise_cons.mpr
        ⟨?_, ih ht (fun z hz heq => hx z (List.mem_cons_of_mem _ hz) heq)⟩
      intro b hb
      rcases (mem_insDesc x b t).mp hb with rfl | hbt
      · have hlt : b.TMA < y.TMA := lt_of_not_le hcmp
        exact ⟨le_of_lt hlt, fun heq => absurd (le_of_eq heq) hcmp⟩
      · exact hy b hbt

theorem sortByTMADesc_pairwise (l : List AggRow)
    (h : l.Pairwise (fun a b => a.Time < b.Time)) :
    (sortByTMADesc l).Pairwise
      (fun a b => b.TMA ≤ a.TMA ∧ (a.TMA = b.TMA → a.Time < b.Time)) := by
  induction l with
  | nil => simp [sortByTMADesc]
  | cons x t ih =>
    rcases List.pairwise_cons.mp h with ⟨hx, ht⟩
    simp only [sortByTMADesc]
    exact insDesc_pairwise x _ (ih ht)
      (fun z hz _ => hx z ((mem_sortByTMADesc z _).mp hz))

/-! ## Claim theorems -/

/-- C1 (counterexample): with two equal-mean rows whose teams first
occur in the order B, A, the aggregate output lists A before B — the
groups tie on rounded mean `TMA` yet appear in ascending team order,
not in first-encountered order, refuting the claim as stated. -/
theorem C1_counterexample :
    (agg [rowTeamB, rowTeamA]).map AggRow.TMA = [10, 10] ∧
    (agg [rowTeamB, rowTeamA]).map AggRow.Time = ["A", "B"] ∧
    firstEncounterOrder [rowTeamB, rowTeamA] = ["B", "A"] := by
  with_unfolding_all decide

/-- C1 (amended): for every input row set, the aggregator orders its
output groups by rounded mean `TMA` non-increasing, and any two groups
with equal rounded mean appear in ascending lexicographic order of
their team value (the groupby sorts group keys; the subsequent stable
sort preserves that order) — not in first-encountered input order. -/
theorem C1_amended_sorted (rows : List Row) :
    (agg rows).Pairwise
      (fun a b => b.TMA ≤ a.TMA ∧ (a.TMA = b.TMA → a.Time < b.Time)) := by
  unfold agg
  apply sortByTMADesc_pairwise
  rw [List.pairwise_map]
  exact (groupTeams_pairwise_lt rows).imp (fun h => h)

/-- C2 (counterexample): the team-name normalizer `_normalize` does NOT
collapse internal whitespace runs, so the claimed equality chain fails
on it: `_normalize("  SAO   PAULO  ")` keeps the triple internal space
and differs from `_normalize("sao paulo")`. -/
theorem C2_counterexample :
    _normalize (some "  SAO   PAULO  ") ≠ _normalize (some "sao paulo") ∧
    _normalize (some "  SAO   PAULO  ") = "sao   paulo" := by
  decide

/-- C2 (amended): the city normalizer `_norm` trims, de-accents,
collapses internal whitespace runs and casefolds, satisfying the full
equality chain; the team normalizer `_normalize` trims, de-accents and
casefolds but preserves internal whitespace runs, so it identifies
`"São Paulo"` with `"sao paulo"` but not with `"  SAO   PAULO  "`. -/
theorem C2_amended_normalizers :
    (_norm (some "São Paulo") = _norm (some "sao paulo") ∧
     _norm (some "sao paulo") = _norm (some "  SAO   PAULO  ") ∧
     _norm (some "São Paulo") = "sao paulo") ∧
    (_normalize (some "São Paulo") = _normalize (some "sao paulo") ∧
     _normalize (some "São Paulo") ≠ _normalize (some "  SAO   PAULO  ")) := by
  decide

/-- C3: if the refresh window has elapsed (stale state) and the
fetch/build pipeline raises, the previously computed result is not
discarded — the session state is returned unchanged, and the failure
surfaces as a distinct error rather than an empty result. -/
theorem C3_stale_error_preserves (s : SessionState) (now : ℚ) (fetch : FetchResult)
    (hStale : isStale s now = true) (hErr : fetch = FetchResult.err) :
    (refreshStep s now fetch).1 = s ∧
    (refreshStep s now fetch).2 = Except.error () := by
  subst hErr
  unfold refreshStep
  rw [if_pos hStale]
  exact ⟨rfl, rfl⟩

/-- C3 witness: a concrete stale state with a stored result and an
expiry in the past keeps its stored rows through a failing refresh. -/
theorem C3_witness :
    (refreshStep sessionW 600 FetchResult.err).1 = sessionW ∧
    (refreshStep sessionW 600 FetchResult.err).2 = Except.error () :=
  C3_stale_error_preserves sessionW 600 FetchResult.err (by with_unfolding_all decide) rfl

/-- C4: `map_to_team_or_self` returns the (stripped) mapped team for
every name whose normalization has a non-blank entry in `TEAM_MAP`;
returns the input unchanged for every other non-empty name; and returns
the "Não atribuído" sentinel for a null or empty input. -/
theorem C4_map_to_team_or_self (r : Option String) :
    (∀ v, dictGet TEAM_MAP (_normalize r) = some v → pyStrip v ≠ "" →
      map_to_team_or_self r = pyStrip v) ∧
    ((∀ v, dictGet TEAM_MAP (_normalize r) = some v → pyStrip v = "") →
      ∀ s, r = some s → s ≠ "" → map_to_team_or_self r = s) ∧
    ((r = none ∨ r = some "") → map_to_team_or_self r = "Não atribuído") := by
  unfold map_to_team_or_self
  cases hlook : dictGet TEAM_MAP (_normalize r) with
  | none =>
    refine ⟨?_, ?_, ?_⟩
    · intro v hv
      exact Option.noConfusion hv
    · intro _ s hs hne
      subst hs
      simp [pyOrStr, hne]
    · rintro (rfl | rfl) <;> simp [pyOrStr]
  | some v0 =>
    by_cases hb : pyStrip v0 = ""
    · refine ⟨?_, ?_, ?_⟩
      · intro v hv hvne
        obtain rfl := Option.some.inj hv
        exact absurd hb hvne
      · intro _ s hs hne
        subst hs
        simp [hb, pyOrStr, hne]
      · rintro (rfl | rfl) <;> simp [hb, pyOrStr]
    · have hempty : dictGet TEAM_MAP "" = none := by decide
      refine ⟨?_, ?_, ?_⟩
      · intro v hv _
        obtain rfl := Option.some.inj hv
        simp [hb]
      · intro hall s hs hne
        exact absurd (hall v0 rfl) hb
      · rintro (rfl | rfl)
        · rw [show _normalize none = "" from rfl, hempty] at hlook
          exact Option.noConfusion hlook
        · rw [show _normalize (some "") = "" from rfl, hempty] at hlook
          exact Option.noConfusion hlook

/-- C4 witness: "Thaís" maps to its team, the unmapped non-empty name
"Zeca" passes through unchanged, and a null input yields the sentinel. -/
theorem C4_witness :
    map_to_team_or_self (some "Thaís") = "STORE" ∧
    map_to_team_or_self (some "Zeca") = "Zeca" ∧
    map_to_team_or_self none = "Não atribuído" := by
  refine ⟨?_, ?_, ?_⟩
  · have h := (C4_map_to_team_or_self (some "Thaís")).1 "STORE" (by decide) (by decide)
    rwa [show pyStrip "STORE" = "STORE" from rfl] at h
  · refine (C4_map_to_team_or_self (some "Zeca")).2.1 ?_ "Zeca" rfl (by decide)
    intro v hv
    rw [show dictGet TEAM_MAP (_normalize (some "Zeca")) = none from by decide] at hv
    exact Option.noConfusion hv
  · exact (C4_map_to_team_or_self none).2.2 (Or.inl rfl)

/-- The shape of any row produced by `buildRow`: an accepted record has
a parsed `created_at` and every field is determined by the admin map,
the contact resolution and the clock. -/
theorem buildRow_eq_some {am : List (String × String)} {cof : String → Option String}
    {now_ts : ℚ} {c : Conv} {r : Row} (h : buildRow am cof now_ts c = some r) :
    ∃ ca, c.created_at = some ca ∧
      r = { Time := map_to_team_or_self (some (respOf am c)),
            TMA_individual := tmaMinutes now_ts ca,
            Responsavel := respOf am c,
            ContactId := firstContactId c,
            Cidade := (contactInfoOf cof (firstContactId c)).Cidade,
            Filial := (contactInfoOf cof (firstContactId c)).Filial,
            FilialCodigo := (contactInfoOf cof (firstContactId c)).FilialCodigo,
            Regional := (contactInfoOf cof (firstContactId c)).Regional } := by
  unfold buildRow at h
  by_cases h1 : c.state ≠ some "open" ∨ c.open_ ≠ some true
  · rw [if_pos h1] at h
    exact Option.noConfusion h
  · rw [if_neg h1] at h
    cases hca : c.created_at with
    | none =>
      rw [hca] at h
      exact Option.noConfusion h
    | some ca =>
      rw [hca] at h
      by_cases h2 : respOf am c ∈ EXCLUDE_ADMINS
      · simp only [h2, if_true] at h
        exact Option.noConfusion h
      · simp only [h2, if_false] at h
        exact ⟨ca, rfl, (Option.some.inj h).symm⟩

/-- C5: for every conversation record accepted by the row builder with
a parsed numeric `created_at`: a past timestamp gives
`age = (now - created_at) / 60` exactly, a future timestamp gives age
0, and the age is never negative. -/
theorem C5_age_minutes (am : List (String × String)) (cof : String → Option String)
    (now_ts : ℚ) (c : Conv) (r : Row) (ca : ℚ)
    (h : buildRow am cof now_ts c = some r) (hca : c.created_at = some ca) :
    (ca ≤ now_ts → r.TMA_individual = (now_ts - ca) / 60) ∧
    (now_ts < ca → r.TMA_individual = 0) ∧
    0 ≤ r.TMA_individual := by
  obtain ⟨ca', hca', hr⟩ := buildRow_eq_some h
  rw [hca] at hca'
  obtain rfl := Option.some.inj hca'
  subst hr
  refine ⟨?_, ?_, ?_⟩
  · intro hle
    show max 0 ((now_ts - ca) / 60) = (now_ts - ca) / 60
    exact max_eq_right (div_nonneg (sub_nonneg.mpr hle) (by norm_num))
  · intro hlt
    show max 0 ((now_ts - ca) / 60) = 0
    have hneg : (now_ts - ca) / 60 < 0 :=
      div_neg_of_neg_of_pos (sub_neg.mpr hlt) (by norm_num)
    exact max_eq_left hneg.le
  · exact le_max_left 0 _

/-- Concrete evaluation: the Curitiba sample conversation builds the
expected row (branch code 4, regional Francisco). -/
theorem buildRow_curitiba_eval :
    buildRow adminMapW cityOfCuritibaW 600 convCuritibaW = some rowCuritibaW := by
  with_unfolding_all decide

/-- Concrete evaluation: the future-dated contactless sample
conversation builds the expected row (age clamped to 0, regional
sentinel). -/
theorem buildRow_future_eval :
    buildRow adminMapW cityOfNoneW 600 convFutureW = some rowFutureW := by
  with_unfolding_all decide

/-- C6: a conversation record with a missing/non-numeric `created_at`,
or whose resolved responsible name is in the exclusion set, produces no
output row and no error, and dropping it from the input leaves the rows
built from all other records unchanged. -/
theorem C6_skip_silent (am : List (String × String)) (cof : String → Option String)
    (now_ts : ℚ) (c : Conv) (l₁ l₂ : List Conv)
    (h : c.created_at = none ∨ respOf am c ∈ EXCLUDE_ADMINS) :
    buildRow am cof now_ts c = none ∧
    get_rows_with_regional am cof now_ts (l₁ ++ c :: l₂) =
      get_rows_with_regional am cof now_ts (l₁ ++ l₂) := by
  have hnone : buildRow am cof now_ts c = none := by
    unfold buildRow
    by_cases h1 : c.state ≠ some "open" ∨ c.open_ ≠ some true
    · rw [if_pos h1]
    · rw [if_neg h1]
      rcases h with hca | hex
      · rw [hca]
      · cases hca : c.created_at with
        | none => rfl
        | some ca => simp only [hex, if_true]
  refine ⟨hnone, ?_⟩
  unfold get_rows_with_regional
  rw [List.filterMap_append, List.filterMap_append,
    List.filterMap_cons_none hnone]

/-- C6 witness: a record without a parseable `created_at` is silently
dropped and the surrounding records are unaffected. -/
theorem C6_witness :
    buildRow adminMapW cityOfNoneW 600 convNoCreatedW = none ∧
    get_rows_with_regional adminMapW cityOfNoneW 600 ([] ++ convNoCreatedW :: []) =
      get_rows_with_regional adminMapW cityOfNoneW 600 ([] ++ []) :=
  C6_skip_silent adminMapW cityOfNoneW 600 convNoCreatedW [] [] (Or.inl rfl)

/-- C5 witness: the Curitiba sample (created 600 s in the past, clock
600) has age exactly 10 minutes; the future-dated sample (created at
1200, clock 600) has age clamped to 0. -/
theorem C5_witness :
    ((0 : ℚ) ≤ 600 ∧ rowCuritibaW.TMA_individual = (600 - 0) / 60) ∧
    ((600 : ℚ) < 1200 ∧ rowFutureW.TMA_individual = 0) := by
  refine ⟨⟨by norm_num, ?_⟩, ⟨by norm_num, ?_⟩⟩
  · exact (C5_age_minutes adminMapW cityOfCuritibaW 600 convCuritibaW rowCuritibaW 0
      buildRow_curitiba_eval rfl).1 (by norm_num)
  · exact (C5_age_minutes adminMapW cityOfNoneW 600 convFutureW rowFutureW 1200
      buildRow_future_eval rfl).2.1 (by norm_num)

theorem mem_regionalCodePairs {k : ℕ} {reg : String}
    (h : (k, reg) ∈ regionalCodePairs) :
    ∃ codes, (reg, codes) ∈ regionais_base ∧ k ∈ codes := by
  unfold regionalCodePairs at h
  rw [List.mem_flatten] at h
  obtain ⟨sub, hsub, hmem⟩ := h
  rw [List.mem_map] at hsub
  obtain ⟨p, hp, rfl⟩ := hsub
  rw [List.mem_map] at hmem
  obtain ⟨c0, hc0, heq⟩ := hmem
  cases heq
  exact ⟨p.2, by simpa using hp, hc0⟩

theorem regionalCodePairs_mem {reg : String} {codes : List ℕ} {k : ℕ}
    (h : (reg, codes) ∈ regionais_base) (hk : k ∈ codes) :
    (k, reg) ∈ regionalCodePairs := by
  unfold regionalCodePairs
  rw [List.mem_flatten]
  exact ⟨codes.map (fun c => (c, reg)), List.mem_map.mpr ⟨(reg, codes), h, rfl⟩,
    List.mem_map.mpr ⟨k, hk, rfl⟩⟩

/-- No branch code occurs twice in the regional code table (this is the
disjointness of the regional lists combined with each list being
duplicate-free). -/
theorem regionalCodePairs_keys_nodup : (regionalCodePairs.map Prod.fst).Nodup := by
  decide

theorem code_to_regional_get (k : ℕ) :
    dictGet code_to_regional k = dictGet regionalCodePairs.reverse k :=
  dictGet_pyDict regionalCodePairs k

theorem code_to_regional_of_mem {reg : String} {codes : List ℕ} {k : ℕ}
    (h : (reg, codes) ∈ regionais_base) (hk : k ∈ codes) :
    dictGet code_to_regional k = some reg := by
  rw [code_to_regional_get]
  apply dictGet_of_mem_of_nodup_keys
  · rw [List.mem_reverse]
    exact regionalCodePairs_mem h hk
  · rw [List.map_reverse]
    exact List.nodup_reverse.mpr regionalCodePairs_keys_nodup

theorem code_to_regional_none {k : ℕ}
    (h : ∀ reg codes, (reg, codes) ∈ regionais_base → k ∉ codes) :
    dictGet code_to_regional k = none := by
  rw [code_to_regional_get]
  apply dictGet_eq_none_of_not_mem_keys
  intro hk
  rw [List.map_reverse, List.mem_reverse] at hk
  obtain ⟨⟨k', reg⟩, hmem, hfst⟩ := List.mem_map.mp hk
  cases hfst
  obtain ⟨codes, hbase, hcode⟩ := mem_regionalCodePairs hmem
  exact h reg codes hbase hcode

theorem code_to_regional_values {k : ℕ} {reg : String}
    (h : dictGet code_to_regional k = some reg) :
    reg ∈ regionais_base.map Prod.fst := by
  rw [code_to_regional_get] at h
  have hmem := mem_of_dictGet h
  rw [List.mem_reverse] at hmem
  obtain ⟨codes, hbase, _⟩ := mem_regionalCodePairs hmem
  exact List.mem_map.mpr ⟨(reg, codes), hbase, rfl⟩

theorem contactInfoOf_regional_def (cof : String → Option String) (cid : Option String) :
    (contactInfoOf cof cid).Regional =
      match (contactInfoOf cof cid).FilialCodigo with
      | some code => (dictGet code_to_regional code).getD "NÃO MAPEADO"
      | none => "NÃO MAPEADO" := rfl

theorem contactInfoOf_regional_cases (cof : String → Option String) (cid : Option String) :
    (contactInfoOf cof cid).Regional = "NÃO MAPEADO" ∨
      (contactInfoOf cof cid).Regional ∈ regionais_base.map Prod.fst := by
  rw [contactInfoOf_regional_def]
  cases hfc : (contactInfoOf cof cid).FilialCodigo with
  | none => exact Or.inl rfl
  | some code =>
    show (dictGet code_to_regional code).getD "NÃO MAPEADO" = "NÃO MAPEADO" ∨
      (dictGet code_to_regional code).getD "NÃO MAPEADO" ∈ regionais_base.map Prod.fst
    cases hreg : dictGet code_to_regional code with
    | none => exact Or.inl rfl
    | some reg => exact Or.inr (code_to_regional_values hreg)

/-- C7: every built row's `Regional` is a base regional name or the
"NÃO MAPEADO" sentinel and never the synthetic "Luciano" group; a row
whose branch code lies in a base regional list gets that regional; a
row whose code lies in no list, or with no contact id at all, gets the
sentinel. -/
theorem C7_regional_invariant (am : List (String × String)) (cof : String → Option String)
    (now_ts : ℚ) (c : Conv) (r : Row)
    (h : buildRow am cof now_ts c = some r) :
    (r.Regional = "NÃO MAPEADO" ∨ r.Regional ∈ regionais_base.map Prod.fst) ∧
    r.Regional ≠ "Luciano" ∧
    (∀ reg codes, (reg, codes) ∈ regionais_base → ∀ k ∈ codes,
      r.FilialCodigo = some k → r.Regional = reg) ∧
    (∀ k, r.FilialCodigo = some k →
      (∀ reg codes, (reg, codes) ∈ regionais_base → k ∉ codes) →
      r.Regional = "NÃO MAPEADO") ∧
    (firstContactId c = none → r.Regional = "NÃO MAPEADO") := by
  obtain ⟨ca, hca, hr⟩ := buildRow_eq_some h
  have hReg : r.Regional = (contactInfoOf cof (firstContactId c)).Regional := by rw [hr]
  have hCod : r.FilialCodigo = (contactInfoOf cof (firstContactId c)).FilialCodigo := by
    rw [hr]
  rw [hReg, hCod]
  refine ⟨contactInfoOf_regional_cases cof _, ?_, ?_, ?_, ?_⟩
  · rcases contactInfoOf_regional_cases cof (firstContactId c) with hx | hx
    · rw [hx]; decide
    · intro hlu
      rw [hlu] at hx
      exact absurd hx (by decide)
  · intro reg codes hbase k hk hcode
    rw [contactInfoOf_regional_def, hcode]
    show (dictGet code_to_regional k).getD "NÃO MAPEADO" = reg
    rw [code_to_regional_of_mem hbase hk]
    rfl
  · intro k hcode hnone
    rw [contactInfoOf_regional_def, hcode]
    show (dictGet code_to_regional k).getD "NÃO MAPEADO" = "NÃO MAPEADO"
    rw [code_to_regional_none hnone]
    rfl
  · intro hnone
    rw [hnone, contactInfoOf_regional_def]
    have h0 : (contactInfoOf cof none).FilialCodigo = none := by
      show CITY2CODE_get "" = none
      decide
    rw [h0]

/-- C7 witness: the Curitiba sample row (branch code 4, in Francisco's
list) is assigned regional Francisco; the contactless sample row gets
the sentinel. -/
theorem C7_witness :
    rowCuritibaW.Regional = "Francisco" ∧ rowFutureW.Regional = "NÃO MAPEADO" := by
  constructor
  · exact (C7_regional_invariant adminMapW cityOfCuritibaW 600 convCuritibaW rowCuritibaW
      buildRow_curitiba_eval).2.2.1 "Francisco"
      [61, 5, 59, 30, 4, 29, 28, 26, 27, 6, 21, 114, 9, 84, 16, 122, 18, 17]
      (by decide) 4 (by decide) rfl
  · exact (C7_regional_invariant adminMapW cityOfNoneW 600 convFutureW rowFutureW
      buildRow_future_eval).2.2.2.2 rfl

/-- C8: the hardcoded base regional code lists are pairwise disjoint —
no branch code appears under two different regionals in
`regionais_base`. -/
theorem C8_regionais_disjoint :
    List.Pairwise (fun p q => ∀ k ∈ p.2, k ∉ q.2) regionais_base := by
  decide

/-- C9 (code bug): with no `[auth]` section the `if not bearer` line
reads an unassigned local and raises a bare `NameError`; with an
`[auth]` section lacking the key, `sect.get("INTERCOM_BEARER").strip()`
raises a bare `AttributeError`.  Neither carries the descriptive
message; only the narrow case of a present-but-blank bearer (with the
other two keys present) reaches the intended `RuntimeError`. -/
theorem C9_get_auth_eval :
    get_auth none = Except.error PyErr.nameError ∧
    PyErr.message? PyErr.nameError = none ∧
    get_auth (some { INTERCOM_BEARER := none, INTERCOM_BASE_URL := some "u",
                     INTERCOM_VERSION := some "v" }) = Except.error PyErr.attributeError ∧
    PyErr.message? PyErr.attributeError = none ∧
    get_auth (some { INTERCOM_BEARER := some "  ", INTERCOM_BASE_URL := some "u",
                     INTERCOM_VERSION := some "v" }) =
      Except.error (PyErr.runtimeError bearerMissingMsg) :=
  ⟨rfl, rfl, rfl, rfl, rfl⟩

/-- Every contact id that occurs in the slim list is found in
`contact_map`, with exactly the enrichment its id derives. -/
theorem contact_map_lookup (cityOf : String → Option String) (slim : List Conv)
    (c : Conv) (hc : c ∈ slim) :
    dictGet (contact_map cityOf slim) (firstContactId c) =
      some (contactInfoOf cityOf (firstContactId c)) := by
  unfold contact_map
  rw [dictGet_pyDict, ← List.map_reverse]
  exact dictGet_graph firstContactId (contactInfoOf cityOf) slim.reverse
    (firstContactId c) (List.mem_map.mpr ⟨c, List.mem_reverse.mpr hc, rfl⟩)

/-- Pointwise comparison of the two per-record builders: they agree on
every field except `ContactId`, where `load_rows_with_progress` writes
`contact_id or ""` (a string cell) while `get_rows_with_regional`
writes the raw, possibly null, `contact_id`. -/
theorem loadRow_eq_buildRow (am : List (String × String)) (cof : String → Option String)
    (now_ts : ℚ) (slim : List Conv) (c : Conv) (hc : c ∈ slim) :
    loadRow am (contact_map cof slim) now_ts c =
      (buildRow am cof now_ts c).map
        (fun r => { r with ContactId := some (pyOrStr r.ContactId "") }) := by
  unfold loadRow buildRow
  by_cases h1 : c.state ≠ some "open" ∨ c.open_ ≠ some true
  · rw [if_pos h1, if_pos h1]
    rfl
  · rw [if_neg h1, if_neg h1]
    cases hca : c.created_at with
    | none => rfl
    | some ca =>
      by_cases h2 : respOf am c ∈ EXCLUDE_ADMINS
      · simp only [h2, if_true]
        rfl
      · simp only [h2, if_false]
        rw [contact_map_lookup cof slim c hc]
        rfl

/-- C10 (counterexample): on a single open conversation with no
contact, the two pipelines disagree — `get_rows_with_regional` leaves
the `ContactId` cell null while `load_rows_with_progress` writes the
empty string — so the outputs are not row-for-row identical. -/
theorem C10_counterexample :
    load_rows_with_progress adminMapW cityOfNoneW 600 [convFutureW] ≠
      get_rows_with_regional adminMapW cityOfNoneW 600 [convFutureW] := by
  with_unfolding_all decide

/-- C10 (amended): on the same fetched data and clock, the two
pipelines produce row-for-row identical DataFrames in every field
except `ContactId`: `load_rows_with_progress` stores
`contact_id or ""` (empty string for a missing or empty id) where
`get_rows_with_regional` stores the raw, possibly null, id.  In
particular they agree whenever every accepted record has a non-empty
contact id. -/
theorem C10_amended_equiv (am : List (String × String)) (cof : String → Option String)
    (now_ts : ℚ) (slim : List Conv) :
    load_rows_with_progress am cof now_ts slim =
      (get_rows_with_regional am cof now_ts slim).map
        (fun r => { r with ContactId := some (pyOrStr r.ContactId "") }) := by
  unfold load_rows_with_progress get_rows_with_regional
  rw [List.map_filterMap]
  apply List.filterMap_congr
  intro c hc
  exact loadRow_eq_buildRow am cof now_ts slim c hc
